import Mathlib

/-!
Verification of the conversation routing engine of the quiz-me repository
(`src/24-July-2025/quiz-me`), shallowly embedded from the Python sources
`src/edges/conversation_router.py`, `src/state/quiz_state.py` and
`src/state/state_serializers.py`.

Modelling conventions:
* Python `str` is Lean `String`; `Optional[X]` is `Option X`.
* Python `int` is Lean `Int` (unbounded, possibly negative).
* Phases and intents are plain strings, exactly as the router compares them.
* The `float` field `quiz_completion_percentage` is modelled as `Rat`; no
  embedded function computes with it, it is only carried and compared.
* `datetime` values and the uuid session id are opaque to every embedded
  function; they are modelled as `Int` timestamps and a `String`, and the
  nondeterministic factories (`datetime.now`, `uuid.uuid4`) become explicit
  parameters where a function would invoke them.
* The list-of-dict history fields (`user_answers`, `conversation_history`)
  and the open `quiz_metadata` mapping are never read or written by any
  function embedded here, so their entries are modelled opaquely.
-/

/-- Python truthiness of an `Optional[str]`: `None` and `""` are falsy. -/
def py_truthy_str : Option String → Bool
  | none => false
  | some t => t != ""

/-- `needle` occurs as a contiguous sublist of `hay` (Python `needle in hay`). -/
def list_contains_sub (needle hay : List Char) : Bool :=
  hay.tails.any (fun t => needle.isPrefixOf t)

/-- `hay.contains(needle)` on strings, via the character lists. -/
def str_contains_sub (hay needle : String) : Bool :=
  list_contains_sub needle.toList hay.toList

/-- Python `str.lower()` (the embedded keywords are all ASCII), computed on
the character list so that the kernel can evaluate it. -/
def str_lower (s : String) : String :=
  String.mk (s.toList.map Char.toLower)

/-- Python `str.strip()`: drop leading and trailing whitespace, computed on
the character list so that the kernel can evaluate it. -/
def py_strip (s : String) : String :=
  String.mk
    (((s.toList.dropWhile Char.isWhitespace).reverse.dropWhile Char.isWhitespace).reverse)

/-- The `QuizState` pydantic model of `src/state/quiz_state.py`, field for
field in declaration order. -/
structure QuizState where
  user_input : String
  user_intent : Option String
  current_phase : String
  topic : Option String
  topic_validated : Bool
  quiz_type : String
  max_questions : Option Int
  current_question_index : Int
  current_question : Option String
  question_type : Option String
  question_options : Option (List String)
  correct_answer : Option String
  user_answers : List String
  current_answer : Option String
  answer_is_correct : Option Bool
  answer_feedback : Option String
  total_score : Int
  total_questions_answered : Int
  correct_answers_count : Int
  quiz_completion_percentage : Rat
  quiz_active : Bool
  quiz_completed : Bool
  session_id : Option String
  last_error : Option String
  retry_count : Int
  conversation_history : List String
  quiz_metadata : List (String × String)
  created_at : Int
  updated_at : Int
deriving DecidableEq, Repr

/-- `QuizState()` with every field at its declared default; the
`default_factory` results for `session_id` and the two timestamps are the
explicit parameters `fresh_sid` and `now`. -/
def default_quiz_state (fresh_sid : String) (now : Int) : QuizState :=
  { user_input := ""
    user_intent := none
    current_phase := "topic_selection"
    topic := none
    topic_validated := false
    quiz_type := "finite"
    max_questions := some 10
    current_question_index := 0
    current_question := none
    question_type := none
    question_options := none
    correct_answer := none
    user_answers := []
    current_answer := none
    answer_is_correct := none
    answer_feedback := none
    total_score := 0
    total_questions_answered := 0
    correct_answers_count := 0
    quiz_completion_percentage := 0
    quiz_active := false
    quiz_completed := false
    session_id := some fresh_sid
    last_error := none
    retry_count := 0
    conversation_history := []
    quiz_metadata := []
    created_at := now
    updated_at := now }

/-- `route_from_topic_selection` (conversation_router.py lines 72-82). -/
def route_from_topic_selection (s : QuizState) : String :=
  if s.user_intent = some "start_quiz" then "topic_validator"
  else if s.user_intent = some "clarification" then "clarification_handler"
  else "clarification_handler"

/-- `route_from_topic_validation` (conversation_router.py lines 84-96). -/
def route_from_topic_validation (s : QuizState) : String :=
  if s.topic_validated then "quiz_generator"
  else if s.retry_count ≥ 3 then "end"
  else "clarification_handler"

/-- `route_from_quiz_active` (conversation_router.py lines 98-114).  The
disambiguation branch assigns `state.user_intent = "answer_question"`, so the
function returns the possibly mutated state alongside the target. -/
def route_from_quiz_active (s : QuizState) : String × QuizState :=
  if s.user_intent = some "answer_question" then ("answer_validator", s)
  else if s.user_intent = some "clarification" then ("clarification_handler", s)
  else if py_truthy_str s.current_question ∧ py_strip s.user_input ≠ "" then
    ("answer_validator", { s with user_intent := some "answer_question" })
  else ("clarification_handler", s)

/-- `route_from_question_answered` (conversation_router.py lines 116-126). -/
def route_from_question_answered (s : QuizState) : String :=
  if s.user_intent = some "continue" ∨ s.user_intent = some "answer_question" then
    "score_generator"
  else if s.user_intent = some "clarification" then "clarification_handler"
  else "score_generator"

/-- `route_from_quiz_complete` (conversation_router.py lines 128-135). -/
def route_from_quiz_complete (s : QuizState) : String :=
  if s.user_intent = some "new_quiz" ∨ s.user_intent = some "start_quiz" then
    "topic_validator"
  else "end"

/-- `route_conversation` (conversation_router.py lines 19-68): session-wide
overrides first, then dispatch on the phase string, with an unknown phase
falling back to `query_analyzer`.  The result pairs the returned node name
with the state after the call (only the `quiz_active` dispatch can write to
it).  None of the embedded phase routers can raise, so the `except` clause of
lines 65-68 is unreachable here; its semantics is modelled separately by
`route_conversation_guarded`. -/
def route_conversation (s : QuizState) : String × QuizState :=
  if s.user_intent = some "exit" then ("end", s)
  else if s.user_intent = some "new_quiz" then ("topic_validator", s)
  else if s.current_phase = "topic_selection" then (route_from_topic_selection s, s)
  else if s.current_phase = "topic_validation" then (route_from_topic_validation s, s)
  else if s.current_phase = "quiz_active" then route_from_quiz_active s
  else if s.current_phase = "question_answered" then (route_from_question_answered s, s)
  else if s.current_phase = "quiz_complete" then (route_from_quiz_complete s, s)
  else ("query_analyzer", s)

/-- The `try`/`except` wrapper of `route_conversation` (lines 33-68),
abstracted over the outcome of the dispatched body: a raised exception with
message `e` is `Except.error e`, and the handler returns `"query_analyzer"`
leaving the state exactly as it was (the error text is only logged). -/
def route_conversation_guarded
    (body : QuizState → Except String (String × QuizState)) (s : QuizState) :
    String × QuizState :=
  match body s with
  | Except.ok r => r
  | Except.error _ => ("query_analyzer", s)

/-- `should_end_session` (conversation_router.py lines 177-186). -/
def should_end_session (s : QuizState) : Bool :=
  decide (s.user_intent = some "exit") ||
  decide (s.retry_count ≥ 5) ||
  (decide (s.current_phase = "quiz_complete") &&
    !(decide (s.user_intent = some "new_quiz") || decide (s.user_intent = some "start_quiz")))

/-- `get_retry_node_for_phase` (conversation_router.py lines 200-208). -/
def get_retry_node_for_phase (phase : String) : String :=
  if phase = "topic_selection" then "query_analyzer"
  else if phase = "topic_validation" then "topic_validator"
  else if phase = "quiz_active" then "quiz_generator"
  else if phase = "question_answered" then "answer_validator"
  else "query_analyzer"

/-- The keyword list mapped to `"user_input_error"` (line 217). -/
def user_input_keywords : List String := ["input", "understand", "unclear"]

/-- The keyword list mapped to `"llm_error"` (line 219). -/
def llm_keywords : List String := ["llm", "api", "network", "timeout"]

/-- The keyword list mapped to `"validation_error"` (line 221). -/
def validation_keywords : List String := ["validation", "invalid", "format"]

/-- `any(keyword in error_lower for keyword in kws)` where `error_lower` is
the lower-cased message. -/
def matches_any_keyword (m : String) (kws : List String) : Bool :=
  kws.any (fun k => str_contains_sub (str_lower m) k)

/-- `classify_error_type` (conversation_router.py lines 210-224): `None` and
`""` are falsy, otherwise keyword groups are tried in source order against
the lower-cased message. -/
def classify_error_type : Option String → String
  | none => "unknown"
  | some m =>
    if m = "" then "unknown"
    else if matches_any_keyword m user_input_keywords then "user_input_error"
    else if matches_any_keyword m llm_keywords then "llm_error"
    else if matches_any_keyword m validation_keywords then "validation_error"
    else "unknown"

/-- `route_error_recovery` (conversation_router.py lines 156-173). -/
def route_error_recovery (s : QuizState) : String :=
  let error_type := classify_error_type s.last_error
  if error_type = "user_input_error" then "clarification_handler"
  else if error_type = "llm_error" then
    if s.retry_count < 3 then get_retry_node_for_phase s.current_phase
    else "end"
  else if error_type = "validation_error" then "clarification_handler"
  else "end"

/-- The `valid_transitions` table of `validate_routing_decision`
(conversation_router.py lines 293-301), with the `.get(phase, [])` default. -/
def valid_transitions (phase : String) : List String :=
  if phase = "topic_selection" then ["topic_validator", "clarification_handler", "end"]
  else if phase = "topic_validation" then ["quiz_generator", "clarification_handler", "end"]
  else if phase = "quiz_active" then
    ["answer_validator", "clarification_handler", "quiz_generator", "end"]
  else if phase = "question_answered" then ["score_generator", "clarification_handler", "end"]
  else if phase = "quiz_complete" then ["topic_validator", "end"]
  else []

/-- The `node_requirements` prerequisite table of `validate_routing_decision`
(lines 308-313); a node without an entry passes. -/
def node_requirement (node : String) (s : QuizState) : Bool :=
  if node = "topic_validator" then s.user_input != ""
  else if node = "quiz_generator" then s.topic_validated && py_truthy_str s.topic
  else if node = "answer_validator" then
    py_truthy_str s.current_answer && py_truthy_str s.current_question
  else if node = "score_generator" then !(decide (s.answer_is_correct = none))
  else true

/-- `validate_routing_decision` (conversation_router.py lines 288-320). -/
def validate_routing_decision (s : QuizState) (next_node : String) : Bool :=
  if next_node ∉ valid_transitions s.current_phase ∧ next_node ≠ "query_analyzer" then
    false
  else
    node_requirement next_node s

/-- `main_route_conversation` (lines 392-396): `route_conversation` wrapped by
the `validate_routing_result` decorator (lines 377-388), which validates the
proposed node against the state as mutated by the call and substitutes
`"query_analyzer"` on failure; the outer `log_routing_decision` decorator only
logs and records metrics, leaving the result unchanged. -/
def main_route_conversation (s : QuizState) : String × QuizState :=
  let r := route_conversation s
  if validate_routing_decision r.2 r.1 then (r.1, r.2)
  else ("query_analyzer", r.2)

/-- `StateSerializer.serialize` / `serialize_state`
(state_serializers.py lines 38-55, 108-121): the placeholder returns the
constant JSON document `json.dumps(\x7b"placeholder": "serialized_state"\x7d)`
for every state. -/
def serialize_state (_s : QuizState) : String :=
  "\x7b\"placeholder\": \"serialized_state\"\x7d"

/-- `StateSerializer.deserialize` / `deserialize_state`
(state_serializers.py lines 57-74, 123-136): the placeholder ignores the JSON
string and returns a fresh `QuizState()`, whose generated session id and
creation time are the explicit parameters `fresh_sid` and `now`. -/
def deserialize_state (_json_str : String) (fresh_sid : String) (now : Int) : QuizState :=
  default_quiz_state fresh_sid now

/-- The guard of the disambiguation branch of `route_from_quiz_active` as it
is reached through `route_conversation`: no session-wide override fired, the
phase dispatch selected `quiz_active`, neither explicit intent matched, a
question is pending (Python truthiness) and the stripped user input is
non-empty. -/
def quiz_active_override_fires (s : QuizState) : Bool :=
  decide (s.user_intent ≠ some "exit") &&
  decide (s.user_intent ≠ some "new_quiz") &&
  decide (s.current_phase = "quiz_active") &&
  decide (s.user_intent ≠ some "answer_question") &&
  decide (s.user_intent ≠ some "clarification") &&
  py_truthy_str s.current_question &&
  decide (py_strip s.user_input ≠ "")

/-- A shared baseline state: `QuizState()` with a fixed session id and
creation time. -/
def base_state : QuizState := default_quiz_state "session-0" 0

/-- A `quiz_active` state whose user asked to exit. -/
def exit_state : QuizState :=
  { base_state with
    current_phase := "quiz_active"
    user_intent := some "exit"
    current_question := some "What is 2 + 2?"
    user_input := "4"
    retry_count := 2 }

/-- A `quiz_active` state with a pending question, non-empty input and no
classified intent. -/
def pending_answer_state : QuizState :=
  { base_state with
    current_phase := "quiz_active"
    current_question := some "What is 2 + 2?"
    user_input := " 4 " }

/-- A `topic_validation` state with a validated topic. -/
def tv_ok_state : QuizState :=
  { base_state with
    current_phase := "topic_validation"
    topic := some "Python"
    topic_validated := true }

/-- A `topic_validation` state that failed validation with `retry_count = 3`. -/
def tv_fail3_state : QuizState :=
  { base_state with current_phase := "topic_validation", retry_count := 3 }

/-- A `topic_validation` state that failed validation with `retry_count = 1`. -/
def tv_fail1_state : QuizState :=
  { base_state with current_phase := "topic_validation", retry_count := 1 }

/-- A state whose global retry count has reached the session ceiling of 5
while the user still wants to start a quiz. -/
def retry5_state : QuizState :=
  { base_state with
    current_phase := "topic_selection"
    user_intent := some "start_quiz"
    user_input := "Python"
    retry_count := 5 }

/-- An error state whose diagnostic classifies as a validation error, with no
retries used yet. -/
def validation_error_state : QuizState :=
  { base_state with
    current_phase := "topic_validation"
    last_error := some "invalid format"
    retry_count := 0 }

/-- An error state whose diagnostic mentions the network, with 2 retries
used. -/
def network_error_state : QuizState :=
  { base_state with
    current_phase := "quiz_active"
    last_error := some "network timeout"
    retry_count := 2 }

/-- An error state whose diagnostic mentions the LLM, with 3 retries used. -/
def llm_exhausted_state : QuizState :=
  { base_state with
    current_phase := "quiz_active"
    last_error := some "LLM API timeout"
    retry_count := 3 }

/-- An error state whose diagnostic blames the user input. -/
def user_input_error_state : QuizState :=
  { base_state with last_error := some "User input unclear" }

/-- An error state with no diagnostic at all. -/
def no_error_state : QuizState :=
  { base_state with last_error := none, current_phase := "quiz_active" }

/-- A `question_answered` state where `continue` proposes `score_generator`
but `answer_is_correct` was never set. -/
def unscored_state : QuizState :=
  { base_state with
    current_phase := "question_answered"
    user_intent := some "continue" }

/-- A phase-router body that always raises, with exception text `boom`. -/
def always_failing_body : QuizState → Except String (String × QuizState) :=
  fun _ => Except.error "boom"

/-- A populated state for the serialization round trip, as in the repository
test `test_state_deserialization`. -/
def populated_state : QuizState :=
  { default_quiz_state "orig-sid" 7 with
    user_input := "hello"
    topic := some "Python Programming"
    total_score := 75
    quiz_active := true }

/-! ## Helper lemmas shared by several theorems -/

/-- After a `route_conversation` call the state is either untouched or has
exactly its `user_intent` field overwritten with `answer_question`. -/
theorem route_conversation_snd_cases (s : QuizState) :
    (route_conversation s).2 = s ∨
    (route_conversation s).2 = { s with user_intent := some "answer_question" } := by
  unfold route_conversation route_from_quiz_active
  split_ifs <;> simp

/-- `route_conversation` never changes the phase. -/
theorem route_conversation_preserves_phase (s : QuizState) :
    (route_conversation s).2.current_phase = s.current_phase := by
  rcases route_conversation_snd_cases s with h | h <;> rw [h]

/-- The prerequisite predicates never read `user_intent`. -/
theorem node_requirement_ignores_intent (n : String) (s : QuizState) (i : Option String) :
    node_requirement n { s with user_intent := i } = node_requirement n s := rfl

/-- A successful `validate_routing_decision` means the node is in the
transition table for the phase (or is the fallback itself) and its
prerequisite holds. -/
theorem validate_routing_decision_true (s : QuizState) (n : String)
    (h : validate_routing_decision s n = true) :
    (n ∈ valid_transitions s.current_phase ∨ n = "query_analyzer") ∧
    node_requirement n s = true := by
  unfold validate_routing_decision at h
  by_cases hc : n ∉ valid_transitions s.current_phase ∧ n ≠ "query_analyzer"
  · rw [if_pos hc] at h
    exact absurd h (by simp)
  · rw [if_neg hc] at h
    exact ⟨by tauto, h⟩

/-! ## Claims -/

/-- C1: for every session state, if the user intent is `exit` then
`route_conversation` returns the target `end`, regardless of the current
phase and of every other field of the state. -/
theorem C1_exit_routes_to_end (s : QuizState) (h : s.user_intent = some "exit") :
    (route_conversation s).1 = "end" := by
  unfold route_conversation
  rw [if_pos h]

/-- Witness for C1 at a concrete `quiz_active` state with exit intent. -/
theorem C1_exit_routes_to_end_witness :
    exit_state.user_intent = some "exit" ∧ (route_conversation exit_state).1 = "end" :=
  ⟨rfl, C1_exit_routes_to_end exit_state rfl⟩

/-- C6: the topic-validation router returns `quiz_generator` whenever
`topic_validated` is true; when it is false it returns `end` if
`retry_count >= 3` and `clarification_handler` if `retry_count < 3`. -/
theorem C6_topic_validation_router (s : QuizState) :
    (s.topic_validated = true → route_from_topic_validation s = "quiz_generator") ∧
    (s.topic_validated = false → s.retry_count ≥ 3 →
      route_from_topic_validation s = "end") ∧
    (s.topic_validated = false → s.retry_count < 3 →
      route_from_topic_validation s = "clarification_handler") := by
  unfold route_from_topic_validation
  refine ⟨fun h => by simp [h], fun h h3 => ?_, fun h h3 => ?_⟩
  · simp [h, h3]
  · simp [h, not_le.mpr h3]

/-- Witness for C6: `retry_count = 3` yields `end`, `retry_count = 1` yields
`clarification_handler`, and a validated topic yields `quiz_generator`. -/
theorem C6_topic_validation_router_witness :
    route_from_topic_validation tv_ok_state = "quiz_generator" ∧
    route_from_topic_validation tv_fail3_state = "end" ∧
    route_from_topic_validation tv_fail1_state = "clarification_handler" :=
  ⟨(C6_topic_validation_router tv_ok_state).1 rfl,
   (C6_topic_validation_router tv_fail3_state).2.1 rfl (by decide),
   (C6_topic_validation_router tv_fail1_state).2.2 rfl (by decide)⟩

/-- C4 counterexample: the claim says a diagnostic containing `network`
classifies as a Network kind distinct from the LLM kind, and that Validation
is checked before UserInput.  The code has no network kind at all —
`"network"` and `"llm"` collapse to the same result — and `"invalid input"`
is classified as a user-input error because the user-input keywords are
checked first. -/
theorem C4_classifier_counterexample :
    classify_error_type (some "network") = "llm_error" ∧
    classify_error_type (some "network") = classify_error_type (some "llm") ∧
    classify_error_type (some "invalid input") = "user_input_error" := by
  decide

/-- C4 amended: the classifier returns one of the four kinds
`user_input_error`, `llm_error`, `validation_error`, `unknown`; the keyword
groups are tried in the order user-input (`input`, `understand`, `unclear`),
then LLM (`llm`, `api`, `network`, `timeout` — network and timeout diagnostics
also yield `llm_error`), then validation (`validation`, `invalid`, `format`);
a missing, empty or unmatched diagnostic yields `unknown`; classifying
`LLM request timed out` yields `llm_error` and classifying the empty string
yields `unknown`. -/
theorem C4_classifier_amended (t : Option String) (m : String) (hm : m ≠ "") :
    classify_error_type t ∈ ["user_input_error", "llm_error", "validation_error", "unknown"] ∧
    classify_error_type none = "unknown" ∧
    classify_error_type (some "") = "unknown" ∧
    classify_error_type (some "LLM request timed out") = "llm_error" ∧
    (matches_any_keyword m user_input_keywords = true →
      classify_error_type (some m) = "user_input_error") ∧
    (matches_any_keyword m user_input_keywords = false →
      matches_any_keyword m llm_keywords = true →
      classify_error_type (some m) = "llm_error") ∧
    (matches_any_keyword m user_input_keywords = false →
      matches_any_keyword m llm_keywords = false →
      matches_any_keyword m validation_keywords = true →
      classify_error_type (some m) = "validation_error") ∧
    (matches_any_keyword m user_input_keywords = false →
      matches_any_keyword m llm_keywords = false →
      matches_any_keyword m validation_keywords = false →
      classify_error_type (some m) = "unknown") := by
  refine ⟨?_, by decide, by decide, by decide, ?_, ?_, ?_, ?_⟩
  · cases t with
    | none => simp [classify_error_type]
    | some m' =>
      simp only [classify_error_type]
      split_ifs <;> simp
  · intro h1
    simp [classify_error_type, hm, h1]
  · intro h1 h2
    simp [classify_error_type, hm, h1, h2]
  · intro h1 h2 h3
    simp [classify_error_type, hm, h1, h2, h3]
  · intro h1 h2 h3
    simp [classify_error_type, hm, h1, h2, h3]

/-- Witness for C4 amended, at the diagnostic `network`. -/
theorem C4_classifier_amended_witness :
    classify_error_type (some "network") = "llm_error" ∧
    classify_error_type (some "Validation failed") = "validation_error" :=
  ⟨(C4_classifier_amended (some "network") "network" (by decide)).2.2.2.2.2.1
      (by decide) (by decide),
   (C4_classifier_amended (some "Validation failed") "Validation failed"
      (by decide)).2.2.2.2.2.2.1 (by decide) (by decide) (by decide)⟩

/-- C3 counterexample: a state whose retry count is 5 but whose phase router
still produces a forward target — `route_conversation` (and its validated
wrapper) never consults the global retry ceiling. -/
theorem C3_global_ceiling_counterexample :
    retry5_state.retry_count = 5 ∧
    retry5_state.user_intent ≠ some "exit" ∧
    (route_conversation retry5_state).1 = "topic_validator" ∧
    (route_conversation retry5_state).1 ≠ "end" ∧
    (main_route_conversation retry5_state).1 = "topic_validator" ∧
    (main_route_conversation retry5_state).1 ≠ "end" := by
  decide

/-- C3 amended: the global retry ceiling of 5 is enforced by the
session-ending guard `should_end_session` — consulted by the session loop
before routing — which returns true for every state whose retry count has
reached 5, regardless of error kind, intent and phase; `route_conversation`
itself does not check the ceiling. -/
theorem C3_global_ceiling_amended (s : QuizState) (h : s.retry_count ≥ 5) :
    should_end_session s = true := by
  unfold should_end_session
  simp [h]

/-- Witness for C3 amended at a concrete state with retry count 5. -/
theorem C3_global_ceiling_amended_witness :
    retry5_state.retry_count ≥ 5 ∧ should_end_session retry5_state = true :=
  ⟨by decide, C3_global_ceiling_amended retry5_state (by decide)⟩

/-- C5 counterexample: the claim says validation errors are retried up to 3
times and network errors at most twice.  The code never retries a validation
error — it escalates to `clarification_handler` at retry count 0 instead of
routing to the retry node — and a network diagnostic is classified as
`llm_error`, so it is still retried at retry count 2. -/
theorem C5_retry_policy_counterexample :
    classify_error_type validation_error_state.last_error = "validation_error" ∧
    validation_error_state.retry_count = 0 ∧
    route_error_recovery validation_error_state = "clarification_handler" ∧
    route_error_recovery validation_error_state ≠
      get_retry_node_for_phase validation_error_state.current_phase ∧
    classify_error_type network_error_state.last_error = "llm_error" ∧
    network_error_state.retry_count = 2 ∧
    route_error_recovery network_error_state = "quiz_generator" := by
  decide

/-- C5 amended: `route_error_recovery` sends user-input errors to
`clarification_handler` with no retry; LLM errors (a class that also covers
network and timeout diagnostics) are retried via the retry node of the
current phase while the retry count is below 3, and terminate with `end`
once it reaches 3; validation errors always escalate to
`clarification_handler` with no retry and no rule-based fallback; an unknown
error terminates with `end` immediately. -/
theorem C5_retry_policy_amended (s : QuizState) :
    (classify_error_type s.last_error = "user_input_error" →
      route_error_recovery s = "clarification_handler") ∧
    (classify_error_type s.last_error = "llm_error" → s.retry_count < 3 →
      route_error_recovery s = get_retry_node_for_phase s.current_phase) ∧
    (classify_error_type s.last_error = "llm_error" → s.retry_count ≥ 3 →
      route_error_recovery s = "end") ∧
    (classify_error_type s.last_error = "validation_error" →
      route_error_recovery s = "clarification_handler") ∧
    (classify_error_type s.last_error = "unknown" →
      route_error_recovery s = "end") := by
  refine ⟨fun h => ?_, fun h h3 => ?_, fun h h3 => ?_, fun h => ?_, fun h => ?_⟩
  · simp [route_error_recovery, h]
  · simp [route_error_recovery, h, h3]
  · simp [route_error_recovery, h, not_lt.mpr h3]
  · simp [route_error_recovery, h]
  · simp [route_error_recovery, h]

/-- Witness for C5 amended across all four error kinds. -/
theorem C5_retry_policy_amended_witness :
    route_error_recovery user_input_error_state = "clarification_handler" ∧
    route_error_recovery network_error_state = "quiz_generator" ∧
    route_error_recovery llm_exhausted_state = "end" ∧
    route_error_recovery validation_error_state = "clarification_handler" ∧
    route_error_recovery no_error_state = "end" :=
  ⟨(C5_retry_policy_amended user_input_error_state).1 (by decide),
   (C5_retry_policy_amended network_error_state).2.1 (by decide) (by decide),
   (C5_retry_policy_amended llm_exhausted_state).2.2.1 (by decide) (by decide),
   (C5_retry_policy_amended validation_error_state).2.2.2.1 (by decide),
   (C5_retry_policy_amended no_error_state).2.2.2.2 (by decide)⟩

/-- C9: the serializer is a placeholder — `serialize_state` emits a constant
JSON document for every state and `deserialize_state` returns a fresh default
`QuizState`, so the round trip loses every populated field (here the topic
and the total score), contradicting the repository test
`test_state_deserialization`. -/
theorem C9_roundtrip_fails :
    serialize_state populated_state = "\x7b\"placeholder\": \"serialized_state\"\x7d" ∧
    deserialize_state (serialize_state populated_state) "fresh-sid" 9 ≠ populated_state ∧
    (deserialize_state (serialize_state populated_state) "fresh-sid" 9).topic = none ∧
    populated_state.topic = some "Python Programming" ∧
    (deserialize_state (serialize_state populated_state) "fresh-sid" 9).total_score = 0 ∧
    populated_state.total_score = 75 := by
  decide

/-- C8 counterexample: when the dispatched phase-router body raises, the
handler returns the `query_analyzer` fallback but leaves the state — in
particular `last_error` — untouched: the exception text `boom` is never
recorded. -/
theorem C8_last_error_counterexample :
    (route_conversation_guarded always_failing_body no_error_state).1 = "query_analyzer" ∧
    (route_conversation_guarded always_failing_body no_error_state).2.last_error = none ∧
    (route_conversation_guarded always_failing_body no_error_state).2.last_error ≠
      some "boom" := by
  decide

/-- C8 amended: any exception raised while evaluating a phase router is
caught and mapped to the `query_analyzer` fallback target with the state left
exactly as it was — the error text is only logged, not recorded into
`last_error` — and the wrapped routing algorithm therefore never fails. -/
theorem C8_exception_fallback_amended
    (body : QuizState → Except String (String × QuizState))
    (s : QuizState) (e : String) (h : body s = Except.error e) :
    route_conversation_guarded body s = ("query_analyzer", s) := by
  unfold route_conversation_guarded
  rw [h]

/-- Witness for C8 amended with a body that always raises `boom`. -/
theorem C8_exception_fallback_amended_witness :
    route_conversation_guarded always_failing_body no_error_state =
      ("query_analyzer", no_error_state) :=
  C8_exception_fallback_amended always_failing_body no_error_state "boom" rfl

/-- C2 counterexample: a `quiz_active` state whose intent is neither
`answer_question` nor `clarification` (it is `exit`), with a pending question
and non-empty input — yet `route_conversation` returns `end` and does not
override the intent, because the session-wide exit override runs before the
phase router. -/
theorem C2_disambiguation_counterexample :
    exit_state.current_phase = "quiz_active" ∧
    exit_state.user_intent ≠ some "answer_question" ∧
    exit_state.user_intent ≠ some "clarification" ∧
    py_truthy_str exit_state.current_question = true ∧
    py_strip exit_state.user_input ≠ "" ∧
    (route_conversation exit_state).1 = "end" ∧
    (route_conversation exit_state).1 ≠ "answer_validator" ∧
    (route_conversation exit_state).2.user_intent = some "exit" := by
  decide

/-- C2 amended: in the `quiz_active` phase, for every state whose intent is
neither `answer_question` nor `clarification` — and also neither `exit` nor
`new_quiz`, since those session-wide overrides run first — if a question is
pending and the stripped user input is non-empty then `route_conversation`
overrides the intent to `answer_question` and returns `answer_validator`,
idempotently; if no question is pending or the input strips to empty it
returns `clarification_handler`. -/
theorem C2_disambiguation_amended (s : QuizState)
    (hphase : s.current_phase = "quiz_active")
    (h1 : s.user_intent ≠ some "answer_question")
    (h2 : s.user_intent ≠ some "clarification")
    (h3 : s.user_intent ≠ some "exit")
    (h4 : s.user_intent ≠ some "new_quiz") :
    (py_truthy_str s.current_question = true → py_strip s.user_input ≠ "" →
      (route_conversation s).1 = "answer_validator" ∧
      (route_conversation s).2.user_intent = some "answer_question" ∧
      (route_conversation (route_conversation s).2).1 = "answer_validator") ∧
    ((py_truthy_str s.current_question = false ∨ py_strip s.user_input = "") →
      (route_conversation s).1 = "clarification_handler") := by
  have hroute : route_conversation s = route_from_quiz_active s := by
    simp [route_conversation, hphase, h3, h4]
  refine ⟨fun hq hi => ?_, fun hor => ?_⟩
  · have hqa : route_from_quiz_active s =
        ("answer_validator", { s with user_intent := some "answer_question" }) := by
      simp [route_from_quiz_active, h1, h2, hq, hi]
    refine ⟨by rw [hroute, hqa], by rw [hroute, hqa], ?_⟩
    rw [hroute, hqa]
    simp [route_conversation, route_from_quiz_active, hphase]
  · rcases hor with hq | hi
    · have hqa : route_from_quiz_active s = ("clarification_handler", s) := by
        simp [route_from_quiz_active, h1, h2, hq]
      rw [hroute, hqa]
    · have hqa : route_from_quiz_active s = ("clarification_handler", s) := by
        simp [route_from_quiz_active, h1, h2, hi]
      rw [hroute, hqa]

/-- Witness for C2 amended at a concrete pending-question state with
unclassified intent. -/
theorem C2_disambiguation_amended_witness :
    (route_conversation pending_answer_state).1 = "answer_validator" ∧
    (route_conversation pending_answer_state).2.user_intent = some "answer_question" ∧
    (route_conversation (route_conversation pending_answer_state).2).1 =
      "answer_validator" :=
  (C2_disambiguation_amended pending_answer_state rfl (by decide) (by decide)
    (by decide) (by decide)).1 (by decide) (by decide)

/-- C7: the validated pipeline `main_route_conversation` returns either a
target that is listed in the transition table for the current phase and
satisfies that target's prerequisite predicate, or the fallback
`query_analyzer`; in particular a proposed `score_generator` target is
rejected and `query_analyzer` substituted whenever `answer_is_correct` is
unset. -/
theorem C7_validated_pipeline (s : QuizState) :
    ((main_route_conversation s).1 = "query_analyzer" ∨
      ((main_route_conversation s).1 ∈ valid_transitions s.current_phase ∧
        node_requirement (main_route_conversation s).1 s = true)) ∧
    (s.answer_is_correct = none → (main_route_conversation s).1 ≠ "score_generator") := by
  have hreq : ∀ n, node_requirement n (route_conversation s).2 = node_requirement n s := by
    intro n
    rcases route_conversation_snd_cases s with h | h <;> rw [h]
    exact node_requirement_ignores_intent n s (some "answer_question")
  have hphase := route_conversation_preserves_phase s
  by_cases hv :
      validate_routing_decision (route_conversation s).2 (route_conversation s).1 = true
  · have hmain :
        main_route_conversation s = ((route_conversation s).1, (route_conversation s).2) := by
      simp [main_route_conversation, hv]
    obtain ⟨hmem, hreq1⟩ := validate_routing_decision_true _ _ hv
    rw [hphase] at hmem
    rw [hreq] at hreq1
    constructor
    · rcases hmem with hmem | hqa
      · right
        rw [hmain]
        exact ⟨hmem, hreq1⟩
      · left
        rw [hmain]
        exact hqa
    · intro hnone hsc
      rw [hmain] at hsc
      rw [hsc] at hreq1
      simp [node_requirement, hnone] at hreq1
  · have hmain :
        main_route_conversation s = ("query_analyzer", (route_conversation s).2) := by
      simp [main_route_conversation, hv]
    constructor
    · left
      rw [hmain]
    · intro _
      rw [hmain]
      simp

/-- Witness for C7: a `question_answered` state with `continue` intent but
`answer_is_correct` unset is rerouted to `query_analyzer`. -/
theorem C7_validated_pipeline_witness :
    unscored_state.answer_is_correct = none ∧
    (main_route_conversation unscored_state).1 ≠ "score_generator" ∧
    (main_route_conversation unscored_state).1 = "query_analyzer" :=
  ⟨rfl, (C7_validated_pipeline unscored_state).2 rfl, by decide⟩

/-- C10: `route_conversation` leaves every field of the state unchanged, with
exactly one exception — when the `quiz_active` disambiguation branch fires it
overwrites `user_intent` with `answer_question`; in every other branch
(including the exit and new-quiz overrides, the unknown-phase fallback and
all other phase routers) the state is returned untouched. -/
theorem C10_route_conversation_frame (s : QuizState) :
    (quiz_active_override_fires s = true →
      (route_conversation s).2 = { s with user_intent := some "answer_question" }) ∧
    (quiz_active_override_fires s = false → (route_conversation s).2 = s) := by
  constructor
  · intro h
    simp only [quiz_active_override_fires, Bool.and_eq_true, decide_eq_true_eq] at h
    obtain ⟨⟨⟨⟨⟨⟨h3, h4⟩, hphase⟩, h1⟩, h2⟩, hq⟩, hi⟩ := h
    simp [route_conversation, route_from_quiz_active, hphase, h1, h2, h3, h4, hq, hi]
  · intro h
    unfold route_conversation route_from_quiz_active
    split_ifs <;> simp_all [quiz_active_override_fires]

/-- Witness for C10: the override branch rewrites only the intent at a
concrete pending-answer state, and an exiting state is returned untouched. -/
theorem C10_route_conversation_frame_witness :
    quiz_active_override_fires pending_answer_state = true ∧
    (route_conversation pending_answer_state).2 =
      { pending_answer_state with user_intent := some "answer_question" } ∧
    quiz_active_override_fires exit_state = false ∧
    (route_conversation exit_state).2 = exit_state :=
  ⟨by decide, (C10_route_conversation_frame pending_answer_state).1 (by decide),
   by decide, (C10_route_conversation_frame exit_state).2 (by decide)⟩
